import Mathlib

/-!
# GPU Resource Profiler — verification of the sampler and threshold analyzer

A shallow embedding of the repository's two core components:

* `src/profiler.py` — `GPUProfiler`: a paced collection loop that pulls an
  environment snapshot (once), a host-info snapshot and a batch of per-device
  GPU snapshots each tick, accumulates them into a `Profile`, and persists the
  profile when the loop ends.
* `src/analysis.py` — `PerformanceAnalyzer`: a batch pass over one device's
  chronological series of GPU snapshots that emits threshold, idle-period and
  memory-bottleneck insights.

Timestamps are rationals (seconds); numeric metrics are rationals.  Fallible
external acquisition calls (`EnvironmentDetector.get_environment_info`,
`SystemMonitor.get_system_info`, `GPUMonitor.get_all_gpu_stats`) are modelled
as `Except Unit` inputs supplied to each tick; `dataclasses.asdict` is the
identity at this boundary because the embedding gives each snapshot its record
type directly.  Dictionary configuration lookup is an association list keyed by
(metric, level); a missing key is a `KeyError` value, mirroring the exception.
-/

deriving instance DecidableEq for Except

namespace GPUResourceProfiler

/-- `EnvironmentInfo` from `src/utils/env.py`. -/
structure EnvironmentInfo where
  timestamp : ℚ
  environment_type : String
  hypervisor : Option String
  container_type : Option String
  container_id : Option String
  hostname : String
deriving DecidableEq, Repr

/-- The host-information record returned by `SystemMonitor.get_system_info`
in `src/utils/system.py` (platform data; `cpu_freq` fields are optional). -/
structure SystemInfo where
  platform : String
  platform_version : String
  processor : String
  python_version : String
  hostname : String
  cpu_count : ℕ
  cpu_freq_current : Option ℚ
  cpu_freq_min : Option ℚ
  cpu_freq_max : Option ℚ
deriving DecidableEq, Repr

/-- One process entry of a GPU snapshot (`src/utils/gpu.py`). -/
structure GPUProcess where
  pid : ℕ
  name : String
  memory_used : ℕ
  username : String
deriving DecidableEq, Repr

/-- `GPUStats` from `src/utils/gpu.py`: one device snapshot.  The analyzer
reads exactly these columns from the flattened profile. -/
structure GPUStats where
  timestamp : ℚ
  device_id : ℕ
  name : String
  utilization : ℚ
  memory_used : ℕ
  memory_total : ℕ
  temperature : ℚ
  power_usage : ℚ
  processes : List GPUProcess
deriving DecidableEq, Repr

/-- `GPUProfiler.current_profile` (`src/profiler.py`): environment and host
info are single optional slots, `gpu_stats` is the ordered list of ticks. -/
structure Profile where
  start_time : ℚ
  environment : Option EnvironmentInfo
  system_info : Option SystemInfo
  gpu_stats : List (List GPUStats)
deriving DecidableEq, Repr

/-- The outcome of the three fallible acquisition calls available to one tick,
plus the tick's wall-clock timestamp. -/
structure TickInput where
  env : Except Unit EnvironmentInfo
  sys : Except Unit SystemInfo
  gpus : Except Unit (List GPUStats)
  timestamp : ℚ
deriving DecidableEq, Repr

/-- The sample dictionary returned by a successful `_collect_sample`. -/
structure CollectedSample where
  timestamp : ℚ
  system_info : SystemInfo
  gpu_stats : List GPUStats
deriving DecidableEq, Repr

/-- The part of `GPUProfiler._collect_sample` after the environment step:
fetch host info, store it, fetch device snapshots, append the tick.  Any
exception leaves the mutations already made in place and yields no sample. -/
def collectAfterEnv (prof : Profile) (t : TickInput) :
    Profile × Option CollectedSample :=
  match t.sys with
  | Except.error _ => (prof, none)
  | Except.ok si =>
    let prof1 := { prof with system_info := some si }
    match t.gpus with
    | Except.error _ => (prof1, none)
    | Except.ok gs =>
      ({ prof1 with gpu_stats := prof1.gpu_stats ++ [gs] },
        some { timestamp := t.timestamp, system_info := si, gpu_stats := gs })

/-- `GPUProfiler._collect_sample` (`src/profiler.py` lines 59–85): the
environment snapshot is requested only while the profile's `environment` slot
is `None`; then host info is stored, then the device batch is appended.  The
surrounding `try`/`except` catches any acquisition failure, logs it, and
returns `None` — mutations made before the failing call are kept. -/
def collect_sample (prof : Profile) (t : TickInput) :
    Profile × Option CollectedSample :=
  match prof.environment, t.env with
  | none, Except.error _ => (prof, none)
  | none, Except.ok e => collectAfterEnv { prof with environment := some e } t
  | some _, _ => collectAfterEnv prof t

/-- Python truthiness of the optional `duration` float: `None` and `0.0` are
falsy, every other value truthy. -/
def durationTruthy : Option ℚ → Bool
  | none => false
  | some d => decide (d ≠ 0)

/-- The loop's break test `if duration and (time.time() - start_time) >= duration`
(`src/profiler.py` line 116), given the elapsed time at the check. -/
def break_condition (duration : Option ℚ) (elapsed : ℚ) : Bool :=
  durationTruthy duration && decide (duration.getD 0 ≤ elapsed)

/-- One external event driving `start_profiling`: a tick (with its acquisition
outcomes and the elapsed time observed at the duration check), a
`KeyboardInterrupt`, or an unexpected exception during profiling. -/
inductive RunEvent where
  | tick (t : TickInput) (elapsed : ℚ)
  | interrupt
  | fatalError
deriving DecidableEq, Repr

/-- How the `while True` loop ended. -/
inductive LoopExit where
  | durationDone
  | interrupted
  | errored
deriving DecidableEq, Repr

/-- The `while True` loop of `GPUProfiler.start_profiling`: consume events in
order; a tick runs `_collect_sample` and then the duration check; an interrupt
or error aborts with the corresponding exit.  `none` means the supplied events
were exhausted with the loop still running. -/
def run_body (duration : Option ℚ) :
    List RunEvent → Profile → Option (Profile × LoopExit)
  | [], _ => none
  | RunEvent.interrupt :: _, p => some (p, LoopExit.interrupted)
  | RunEvent.fatalError :: _, p => some (p, LoopExit.errored)
  | RunEvent.tick t e :: rest, p =>
    let p1 := (collect_sample p t).1
    if break_condition duration e then some (p1, LoopExit.durationDone)
    else run_body duration rest p1

/-- Result of `GPUProfiler._save_profile`: either the profile was written, or
the write failed and the failure was logged — the `except` swallows it. -/
structure SaveResult where
  saved : Option Profile
  errorLogged : Bool
deriving DecidableEq, Repr

/-- `GPUProfiler._save_profile` (`src/profiler.py` lines 87–95). -/
def save_profile (p : Profile) (writeFails : Bool) : SaveResult :=
  if writeFails then { saved := none, errorLogged := true }
  else { saved := some p, errorLogged := false }

/-- The observable outcome of one terminating `start_profiling` call. -/
structure RunOutcome where
  finalProfile : Profile
  exitKind : LoopExit
  saveCalls : ℕ
  save : SaveResult
  raisedToCaller : Bool
deriving DecidableEq, Repr

/-- `GPUProfiler.start_profiling` (`src/profiler.py` lines 97–127): the loop
body inside `try`, `except KeyboardInterrupt` and `except Exception` clauses
that log and fall through, and a `finally` that calls `_save_profile` once.
`none` when the loop does not terminate within the supplied events. -/
def start_profiling (duration : Option ℚ) (events : List RunEvent)
    (writeFails : Bool) (p0 : Profile) : Option RunOutcome :=
  match run_body duration events p0 with
  | none => none
  | some (p, ex) =>
    some { finalProfile := p, exitKind := ex, saveCalls := 1,
           save := save_profile p writeFails, raisedToCaller := false }

/-- Fold `_collect_sample` over a list of tick inputs. -/
def runTicks : List TickInput → Profile → Profile
  | [], p => p
  | t :: rest, p => runTicks rest (collect_sample p t).1

/-- The number of ticks of a run that produce a sample (no acquisition call
fails relative to the profile state at that tick). -/
def successCount : List TickInput → Profile → ℕ
  | [], _ => 0
  | t :: rest, p =>
    (if (collect_sample p t).2.isSome then 1 else 0) +
      successCount rest (collect_sample p t).1

/-- The number of ticks of a run on which the environment snapshot is
requested (the `environment` slot is still `None` when the tick starts). -/
def envRequests : List TickInput → Profile → ℕ
  | [], _ => 0
  | t :: rest, p =>
    (if p.environment.isNone then 1 else 0) +
      envRequests rest (collect_sample p t).1

/-! ## The threshold analyzer (`src/analysis.py`) -/

/-- `PerformanceInsight` from `src/analysis.py`; severity is one of the
literal strings `"info"`, `"warning"`, `"critical"`. -/
structure PerformanceInsight where
  timestamp : ℚ
  severity : String
  message : String
  metric : String
  value : ℚ
  threshold : ℚ
  suggestion : String
deriving DecidableEq, Repr

/-- pandas `.max()` over a column: the maximum of a list of rationals
(`0` for an empty list, which the checks never take). -/
def listMax : List ℚ → ℚ
  | [] => 0
  | x :: xs => xs.foldl max x

/-- The shared shape of `_check_utilization`, `_check_memory_usage`,
`_check_temperature` and `_check_power_usage`: filter the rows whose metric
value is strictly above the warning threshold; if any remain, emit one insight
anchored at the last such row, valued at the maximum over them, escalated to
`critical` with the critical threshold when that maximum reaches it, and
otherwise `warning` with the warning threshold. -/
def threshold_insights (metricVal : GPUStats → ℚ) (w c : ℚ)
    (metricName msgWarn msgCrit suggWarn suggCrit : String)
    (gpu_data : List GPUStats) : List PerformanceInsight :=
  match gpu_data.filter (fun s => decide (w < metricVal s)) with
  | [] => []
  | hd :: tl =>
    let maxVal := listMax ((hd :: tl).map metricVal)
    let anchor := ((hd :: tl).getLast (List.cons_ne_nil hd tl)).timestamp
    if c ≤ maxVal then
      [{ timestamp := anchor, severity := "critical", message := msgCrit,
         metric := metricName, value := maxVal, threshold := c,
         suggestion := suggCrit }]
    else
      [{ timestamp := anchor, severity := "warning", message := msgWarn,
         metric := metricName, value := maxVal, threshold := w,
         suggestion := suggWarn }]

/-- `PerformanceAnalyzer._check_utilization` (lines 68–96), with the two
thresholds already fetched from the configuration. -/
def check_utilization (w c : ℚ) (gpu_data : List GPUStats) (gpu_id : ℕ) :
    List PerformanceInsight :=
  threshold_insights (fun s => s.utilization) w c "utilization"
    ("GPU " ++ toString gpu_id ++ " utilization high")
    ("GPU " ++ toString gpu_id ++ " utilization critically high")
    "Monitor for potential performance bottlenecks"
    "Consider distributing workload across multiple GPUs or optimizing compute operations"
    gpu_data

/-- The derived memory percentage `memory_used / memory_total * 100`. -/
def memory_pct (s : GPUStats) : ℚ :=
  ((s.memory_used : ℚ) / (s.memory_total : ℚ)) * 100

/-- `PerformanceAnalyzer._check_memory_usage` (lines 98–129). -/
def check_memory_usage (w c : ℚ) (gpu_data : List GPUStats) (gpu_id : ℕ) :
    List PerformanceInsight :=
  threshold_insights memory_pct w c "memory"
    ("GPU " ++ toString gpu_id ++ " memory usage high")
    ("GPU " ++ toString gpu_id ++ " memory usage critically high")
    "Monitor memory usage and consider optimization if it continues to increase"
    "Consider reducing batch size or implementing gradient checkpointing"
    gpu_data

/-- `PerformanceAnalyzer._check_temperature` (lines 131–159). -/
def check_temperature (w c : ℚ) (gpu_data : List GPUStats) (gpu_id : ℕ) :
    List PerformanceInsight :=
  threshold_insights (fun s => s.temperature) w c "temperature"
    ("GPU " ++ toString gpu_id ++ " temperature high")
    ("GPU " ++ toString gpu_id ++ " temperature critically high")
    "Monitor temperature and ensure proper cooling"
    "Check cooling system and consider reducing workload or implementing thermal throttling"
    gpu_data

/-- `PerformanceAnalyzer._check_power_usage` (lines 161–189). -/
def check_power_usage (w c : ℚ) (gpu_data : List GPUStats) (gpu_id : ℕ) :
    List PerformanceInsight :=
  threshold_insights (fun s => s.power_usage) w c "power"
    ("GPU " ++ toString gpu_id ++ " power usage high")
    ("GPU " ++ toString gpu_id ++ " power usage critically high")
    "Monitor power usage and consider optimization if it continues to increase"
    "Consider implementing power limits or optimizing power-intensive operations"
    gpu_data

/-- `idle_threshold = 10` in `_check_idle_periods`. -/
def idle_threshold : ℚ := 10

/-- `min_idle_duration = timedelta(minutes=5)`, in seconds. -/
def min_idle_duration : ℚ := 300

/-- The `for` loop of `_check_idle_periods` (lines 200–209): walk the rows
carrying the open run's start timestamp; a row at or above the idle threshold
closes an open run, recording it when the closing row's timestamp is at least
`min_idle_duration` past the start.  Returns the recorded periods in order and
the start of a run still open when the rows end. -/
def idleLoop : List GPUStats → Option ℚ → List (ℚ × ℚ) × Option ℚ
  | [], cur => ([], cur)
  | row :: rest, cur =>
    if row.utilization < idle_threshold then
      match cur with
      | none => idleLoop rest (some row.timestamp)
      | some st => idleLoop rest (some st)
    else
      match cur with
      | none => idleLoop rest none
      | some st =>
        let r := idleLoop rest none
        (if min_idle_duration ≤ row.timestamp - st then
            (st, row.timestamp) :: r.1
          else r.1, r.2)

/-- `_check_idle_periods`' full period computation (lines 196–215): run the
loop, then close a still-open run against the last row of the series. -/
def idle_periods (gpu_data : List GPUStats) : List (ℚ × ℚ) :=
  match (idleLoop gpu_data none).2, gpu_data.getLast? with
  | some st, some lastRow =>
    if min_idle_duration ≤ lastRow.timestamp - st then
      (idleLoop gpu_data none).1 ++ [(st, lastRow.timestamp)]
    else (idleLoop gpu_data none).1
  | _, _ => (idleLoop gpu_data none).1

/-- The insight appended for one idle period (lines 218–227): anchored at the
period's end, severity `info`, and both numeric fields set to the idle
threshold constant. -/
def mkIdleInsight (gpu_id : ℕ) (period : ℚ × ℚ) : PerformanceInsight :=
  { timestamp := period.2, severity := "info",
    message := "GPU " ++ toString gpu_id ++ " idle period detected",
    metric := "utilization", value := idle_threshold,
    threshold := idle_threshold,
    suggestion := "Consider scheduling other workloads during idle periods (" ++
      toString period.1 ++ " to " ++ toString period.2 ++ ")" }

/-- `PerformanceAnalyzer._check_idle_periods` (lines 191–227). -/
def check_idle_periods (gpu_data : List GPUStats) (gpu_id : ℕ) :
    List PerformanceInsight :=
  (idle_periods gpu_data).map (mkIdleInsight gpu_id)

/-- `PerformanceAnalyzer._check_memory_bottlenecks` (lines 229–247): rows
where the derived memory percentage exceeds 80 while utilization is below 50;
if any, one `warning` insight anchored at the last such row whose value is the
mean of the derived percentage over exactly those rows. -/
def check_memory_bottlenecks (gpu_data : List GPUStats) (gpu_id : ℕ) :
    List PerformanceInsight :=
  match gpu_data.filter
      (fun s => decide (80 < memory_pct s) && decide (s.utilization < 50)) with
  | [] => []
  | hd :: tl =>
    [{ timestamp := ((hd :: tl).getLast (List.cons_ne_nil hd tl)).timestamp,
       severity := "warning",
       message := "GPU " ++ toString gpu_id ++
         " potential memory bottleneck detected",
       metric := "memory_utilization_ratio",
       value := ((hd :: tl).map memory_pct).sum / ((hd :: tl).length : ℚ),
       threshold := 80,
       suggestion := "Consider optimizing memory access patterns or reducing memory footprint" }]

/-- The dynamic alert configuration `config['alerts']['gpu']`: an association
list from (metric, level) to the numeric threshold. -/
def Config : Type := List ((String × String) × ℚ)

/-- A dictionary access `config['alerts']['gpu'][metric][level]`: the value
when present, otherwise the `KeyError` the lookup raises. -/
def getThreshold (cfg : Config) (metric level : String) : Except String ℚ :=
  match List.lookup (metric, level) cfg with
  | some v => Except.ok v
  | none => Except.error ("KeyError: " ++ metric ++ "." ++ level)

/-- The two dictionary reads opening each threshold check: fetch the metric's
warning then critical threshold, propagating the `KeyError` of a missing key,
and hand both to the check body. -/
def with_two_thresholds (cfg : Config) (metric : String)
    (body : ℚ → ℚ → List PerformanceInsight) :
    Except String (List PerformanceInsight) :=
  match getThreshold cfg metric "warning" with
  | Except.error e => Except.error e
  | Except.ok w =>
    match getThreshold cfg metric "critical" with
    | Except.error e => Except.error e
    | Except.ok c => Except.ok (body w c)

/-- `_check_utilization` including its two configuration reads. -/
def check_utilization_cfg (cfg : Config) (gpu_data : List GPUStats)
    (gpu_id : ℕ) : Except String (List PerformanceInsight) :=
  with_two_thresholds cfg "utilization" fun w c =>
    check_utilization w c gpu_data gpu_id

/-- `_check_memory_usage` including its two configuration reads. -/
def check_memory_usage_cfg (cfg : Config) (gpu_data : List GPUStats)
    (gpu_id : ℕ) : Except String (List PerformanceInsight) :=
  with_two_thresholds cfg "memory" fun w c =>
    check_memory_usage w c gpu_data gpu_id

/-- `_check_temperature` including its two configuration reads. -/
def check_temperature_cfg (cfg : Config) (gpu_data : List GPUStats)
    (gpu_id : ℕ) : Except String (List PerformanceInsight) :=
  with_two_thresholds cfg "temperature" fun w c =>
    check_temperature w c gpu_data gpu_id

/-- `_check_power_usage` including its two configuration reads. -/
def check_power_usage_cfg (cfg : Config) (gpu_data : List GPUStats)
    (gpu_id : ℕ) : Except String (List PerformanceInsight) :=
  with_two_thresholds cfg "power" fun w c =>
    check_power_usage w c gpu_data gpu_id

/-- `PerformanceAnalyzer._analyze_gpu` (lines 48–66): run the six checks in
order, accumulating their insights; a missing threshold key raises out of the
check that reads it (idle-period and bottleneck checks read no
configuration). -/
def analyze_gpu (cfg : Config) (gpu_data : List GPUStats) (gpu_id : ℕ) :
    Except String (List PerformanceInsight) :=
  match check_utilization_cfg cfg gpu_data gpu_id with
  | Except.error e => Except.error e
  | Except.ok a =>
    match check_memory_usage_cfg cfg gpu_data gpu_id with
    | Except.error e => Except.error e
    | Except.ok b =>
      match check_temperature_cfg cfg gpu_data gpu_id with
      | Except.error e => Except.error e
      | Except.ok c =>
        match check_power_usage_cfg cfg gpu_data gpu_id with
        | Except.error e => Except.error e
        | Except.ok d =>
          Except.ok (a ++ b ++ c ++ d ++ check_idle_periods gpu_data gpu_id ++
            check_memory_bottlenecks gpu_data gpu_id)

/-- The analyzer object: `PerformanceAnalyzer.__init__` (lines 21–28) stores
the configuration and an empty insight list. -/
structure PerformanceAnalyzer where
  config : Config
  insights : List PerformanceInsight

/-- `PerformanceAnalyzer.__init__`: construction performs no validation of the
configuration. -/
def analyzerInit (cfg : Config) : PerformanceAnalyzer :=
  { config := cfg, insights := [] }

/-- The number of insights of a list carrying a given metric name. -/
def countMetric (l : List PerformanceInsight) (m : String) : ℕ :=
  (l.filter (fun i => i.metric == m)).length

/-! ## Declarative idle-run decomposition

The claim about idle periods speaks of *maximal contiguous spans* of samples
with utilization below the idle threshold.  The following definitions state
that decomposition directly, to be proved equal to the scan above. -/

/-- A sample counts as idle when its utilization is strictly below the idle
threshold. -/
def isIdle (s : GPUStats) : Bool := decide (s.utilization < idle_threshold)

/-- Modelled from the spec: the maximal contiguous spans of idle samples of a
series, each paired with the first sample after it (`none` when the span runs
to the end of the series). -/
def specIdleSpans : List GPUStats → List (List GPUStats × Option GPUStats)
  | [] => []
  | s :: rest =>
    if isIdle s then
      match h : (s :: rest).dropWhile isIdle with
      | [] => [((s :: rest).takeWhile isIdle, none)]
      | c :: rest2 => ((s :: rest).takeWhile isIdle, some c) :: specIdleSpans rest2
    else specIdleSpans rest
termination_by l => l.length
decreasing_by
  all_goals simp_wf
  have h1 : (c :: rest2).length ≤ (hd :: tl).length := by
    rw [← h]
    exact (List.dropWhile_sublist _).length_le
  simp only [List.length_cons] at h1 ⊢
  omega

/-- Modelled from the spec: a maximal idle span's start timestamp, and its end
timestamp — the closing sample's timestamp, or the span's own last timestamp
when the run is still open at series end. -/
def specSpanBounds (span : List GPUStats × Option GPUStats) : Option (ℚ × ℚ) :=
  match span with
  | ([], _) => none
  | (h :: t, close) =>
    let en := match close with
      | some c => c.timestamp
      | none => ((h :: t).getLast (List.cons_ne_nil h t)).timestamp
    some (h.timestamp, en)

/-- Modelled from the spec: the qualifying idle runs — maximal idle spans
whose end timestamp is at least the minimum idle duration past their start. -/
def specQualifyingRuns (gpu_data : List GPUStats) : List (ℚ × ℚ) :=
  (specIdleSpans gpu_data).filterMap fun sp =>
    match specSpanBounds sp with
    | none => none
    | some (st, en) =>
      if min_idle_duration ≤ en - st then some (st, en) else none

/-! ## Concrete inputs used by witnesses and counterexamples -/

/-- A device snapshot with the given timestamp, utilization and memory-used
(memory total fixed at 100 MB, cool and low-power). -/
def demoSample (ts u : ℚ) (mu : ℕ) : GPUStats :=
  { timestamp := ts, device_id := 0, name := "Test GPU", utilization := u,
    memory_used := mu, memory_total := 100, temperature := 50,
    power_usage := 50, processes := [] }

/-- The default alert thresholds of `config/config.yaml` (also the fallback
defaults in `src/cli.py`). -/
def demoCfg : Config :=
  [(("utilization", "warning"), 90), (("utilization", "critical"), 95),
   (("memory", "warning"), 85), (("memory", "critical"), 90),
   (("temperature", "warning"), 80), (("temperature", "critical"), 85),
   (("power", "warning"), 90), (("power", "critical"), 95)]

/-- `demoCfg` with the utilization warning threshold missing. -/
def demoCfgNoUtilWarning : Config :=
  [(("utilization", "critical"), 95),
   (("memory", "warning"), 85), (("memory", "critical"), 90),
   (("temperature", "warning"), 80), (("temperature", "critical"), 85),
   (("power", "warning"), 90), (("power", "critical"), 95)]

/-- A concrete environment snapshot. -/
def demoEnv : EnvironmentInfo :=
  { timestamp := 0, environment_type := "bare-metal", hypervisor := none,
    container_type := none, container_id := none, hostname := "test-host" }

/-- A concrete host-information snapshot. -/
def demoSys : SystemInfo :=
  { platform := "Linux", platform_version := "6.1", processor := "x86_64",
    python_version := "3.10.12", hostname := "test-host", cpu_count := 4,
    cpu_freq_current := none, cpu_freq_min := none, cpu_freq_max := none }

/-- The profile `GPUProfiler.__init__` creates (empty slots, no ticks). -/
def demoProfile : Profile :=
  { start_time := 0, environment := none, system_info := none, gpu_stats := [] }

/-- A tick on which all three acquisition calls succeed. -/
def tickOk (ts : ℚ) : TickInput :=
  { env := Except.ok demoEnv, sys := Except.ok demoSys,
    gpus := Except.ok [demoSample ts 50 10], timestamp := ts }

/-- A tick on which the device-snapshot acquisition throws after the
environment and host acquisitions succeeded. -/
def tickGpuFail (ts : ℚ) : TickInput :=
  { env := Except.ok demoEnv, sys := Except.ok demoSys,
    gpus := Except.error (), timestamp := ts }

/-- A tick on which the environment acquisition itself throws. -/
def tickEnvFail (ts : ℚ) : TickInput :=
  { env := Except.error (), sys := Except.ok demoSys,
    gpus := Except.ok [demoSample ts 50 10], timestamp := ts }

/-- Five ticks of which exactly the third fails. -/
def fiveTicksOneFailing : List TickInput :=
  [tickOk 0, tickOk 1, tickGpuFail 2, tickOk 3, tickOk 4]

/-- A device series with a 500-second idle run closed by a busy sample that
also crosses the critical utilization threshold. -/
def idleThenBusySeries : List GPUStats :=
  [demoSample 0 5 0, demoSample 400 5 0, demoSample 500 95 0]

/-- A device series holding 85–90 % memory at 30 % utilization. -/
def bottleneckSeries : List GPUStats :=
  [demoSample 0 30 85, demoSample 10 30 90, demoSample 20 70 90]

/-! ## Sampler lemmas -/

theorem collect_sample_none_gpu_stats (p : Profile) (t : TickInput)
    (h : (collect_sample p t).2 = none) :
    (collect_sample p t).1.gpu_stats = p.gpu_stats := by
  cases hp : p.environment <;> cases he : t.env <;> cases hs : t.sys <;>
    cases hg : t.gpus <;>
    simp [collect_sample, collectAfterEnv, hp, he, hs, hg] at h ⊢

theorem collect_sample_gpu_stats_length (p : Profile) (t : TickInput) :
    (collect_sample p t).1.gpu_stats.length =
      p.gpu_stats.length + (if (collect_sample p t).2.isSome then 1 else 0) := by
  cases hp : p.environment <;> cases he : t.env <;> cases hs : t.sys <;>
    cases hg : t.gpus <;>
    simp [collect_sample, collectAfterEnv, hp, he, hs, hg]

theorem runTicks_gpu_stats_length (ts : List TickInput) (p : Profile) :
    (runTicks ts p).gpu_stats.length =
      p.gpu_stats.length + successCount ts p := by
  induction ts generalizing p with
  | nil => simp [runTicks, successCount]
  | cons t rest ih =>
    show (runTicks rest (collect_sample p t).1).gpu_stats.length = _
    rw [ih, collect_sample_gpu_stats_length]
    show _ = p.gpu_stats.length +
      ((if (collect_sample p t).2.isSome then 1 else 0) +
        successCount rest (collect_sample p t).1)
    exact Nat.add_assoc _ _ _

theorem collect_sample_env_some (p : Profile) (t : TickInput)
    (e : EnvironmentInfo) (h : p.environment = some e) :
    (collect_sample p t).1.environment = some e := by
  cases hs : t.sys <;> cases hg : t.gpus <;>
    simp [collect_sample, collectAfterEnv, h, hs, hg]

theorem collect_sample_env_ok (p : Profile) (t : TickInput)
    (e : EnvironmentInfo) (hp : p.environment = none)
    (he : t.env = Except.ok e) :
    (collect_sample p t).1.environment = some e := by
  cases hs : t.sys <;> cases hg : t.gpus <;>
    simp [collect_sample, collectAfterEnv, hp, he, hs, hg]

theorem envRequests_of_some (ts : List TickInput) (p : Profile)
    (e : EnvironmentInfo) (h : p.environment = some e) :
    envRequests ts p = 0 ∧ (runTicks ts p).environment = some e := by
  induction ts generalizing p with
  | nil => simpa [envRequests, runTicks] using h
  | cons t rest ih =>
    have h1 := collect_sample_env_some p t e h
    have h2 := ih _ h1
    refine ⟨?_, ?_⟩
    · show (if p.environment.isNone then 1 else 0) + _ = 0
      simp [h, h2.1]
    · show (runTicks rest (collect_sample p t).1).environment = some e
      exact h2.2

/-! ## Claim theorems: the sampler -/

/-- C1: the claim says a run started with `duration=0` terminates immediately
(zero or one tick) and still persists the profile.  In the code the duration
check `if duration and ...` treats `0` as falsy, so with `duration = 0` the
loop never breaks on its own: after any finite list of ticks it is still
running, exactly as with `duration = None`. -/
theorem c1_duration_zero_loop_never_breaks :
    ∀ (tks : List (TickInput × ℚ)) (p0 : Profile),
      run_body (some 0) (tks.map fun te => RunEvent.tick te.1 te.2) p0 =
        none := by
  intro tks
  induction tks with
  | nil => intro p0; rfl
  | cons te rest ih =>
    intro p0
    have hb : break_condition (some 0) te.2 = false := by
      simp [break_condition, durationTruthy]
    simp only [List.map_cons, run_body, hb, if_neg Bool.false_ne_true,
      Bool.false_eq_true, if_false]
    exact ih _

/-- C2 counterexample: on a first tick whose device-snapshot acquisition
throws after the environment and host acquisitions succeeded, the tick yields
no sample, yet the profile is not left as it was — its `environment` and
`system_info` fields keep the values stored earlier in the same tick. -/
theorem c2_counterexample_failing_tick_mutates :
    (collect_sample demoProfile (tickGpuFail 0)).2 = none ∧
      (collect_sample demoProfile (tickGpuFail 0)).1 ≠ demoProfile ∧
      (collect_sample demoProfile (tickGpuFail 0)).1.system_info =
        some demoSys ∧
      demoProfile.system_info = none := by
  refine ⟨rfl, by decide, rfl, rfl⟩

/-- C2 (amended): a tick on which an acquisition call throws appends no entry
to `gpu_stats` (though fields assigned earlier in the tick keep their new
values), and over any run the number of recorded ticks equals the number of
fully successful ticks — so a source failing on exactly one of five ticks
yields exactly four recorded ticks. -/
theorem c2_failing_tick_appends_no_tick (p : Profile) (t : TickInput)
    (ts : List TickInput) (h : (collect_sample p t).2 = none) :
    (collect_sample p t).1.gpu_stats = p.gpu_stats ∧
      (runTicks ts p).gpu_stats.length =
        p.gpu_stats.length + successCount ts p :=
  ⟨collect_sample_none_gpu_stats p t h, runTicks_gpu_stats_length ts p⟩

/-- C2 witness: the five-tick run whose third tick fails records exactly four
ticks. -/
theorem c2_failing_tick_appends_no_tick_witness :
    (collect_sample demoProfile (tickGpuFail 2)).2 = none ∧
      ((collect_sample demoProfile (tickGpuFail 2)).1.gpu_stats =
          demoProfile.gpu_stats ∧
        (runTicks fiveTicksOneFailing demoProfile).gpu_stats.length =
          demoProfile.gpu_stats.length +
            successCount fiveTicksOneFailing demoProfile) ∧
      successCount fiveTicksOneFailing demoProfile = 4 ∧
      (runTicks fiveTicksOneFailing demoProfile).gpu_stats.length = 4 :=
  ⟨rfl, c2_failing_tick_appends_no_tick demoProfile (tickGpuFail 2)
    fiveTicksOneFailing rfl, by decide, by decide⟩

/-- C7: every terminating run — duration elapsed, interruption, or an error
during profiling — reaches finalization, which calls `_save_profile` exactly
once on the profile held at loop exit; a persistence failure is logged and
not re-raised, and no exception reaches the caller. -/
theorem c7_finalization_saves_once (duration : Option ℚ)
    (events : List RunEvent) (writeFails : Bool) (p0 : Profile)
    (r : RunOutcome)
    (h : start_profiling duration events writeFails p0 = some r) :
    r.saveCalls = 1 ∧ r.raisedToCaller = false ∧
      r.save = save_profile r.finalProfile writeFails ∧
      (writeFails = false → r.save.saved = some r.finalProfile) ∧
      (writeFails = true →
        r.save.saved = none ∧ r.save.errorLogged = true) := by
  unfold start_profiling at h
  cases hb : run_body duration events p0 with
  | none => rw [hb] at h; exact absurd h (by simp)
  | some pe =>
    obtain ⟨p, ex⟩ := pe
    rw [hb] at h
    cases h
    cases writeFails <;> simp [save_profile]

/-- C7 witness: a run interrupted after one tick, with a failing write,
still attempts persistence exactly once and surfaces nothing. -/
theorem c7_finalization_saves_once_witness :
    ∃ r, start_profiling (some 10)
        [RunEvent.tick (tickOk 0) 0, RunEvent.interrupt] true demoProfile =
        some r ∧
      r.saveCalls = 1 ∧ r.raisedToCaller = false ∧ r.save.saved = none ∧
        r.save.errorLogged = true := by
  refine ⟨_, rfl, ?_⟩
  have h := c7_finalization_saves_once (some 10)
    [RunEvent.tick (tickOk 0) 0, RunEvent.interrupt] true demoProfile _ rfl
  exact ⟨h.1, h.2.1, (h.2.2.2.2 rfl).1, (h.2.2.2.2 rfl).2⟩

/-- C9 counterexample: when the first tick's environment acquisition throws,
the environment is requested again on the second tick — two requests in the
run, and nothing stored after the first tick — refuting "requested and stored
exactly once, on the first tick only". -/
theorem c9_counterexample_env_requested_twice :
    envRequests [tickEnvFail 0, tickOk 1] demoProfile = 2 ∧
      (runTicks [tickEnvFail 0] demoProfile).environment = none ∧
      (runTicks [tickEnvFail 0, tickOk 1] demoProfile).environment =
        some demoEnv := by
  refine ⟨by decide, rfl, rfl⟩

/-- C9 (amended): the environment is requested on every tick while the slot
is still empty; once stored it is never requested again nor overwritten, and
in a run whose first environment request succeeds it is requested exactly
once. -/
theorem c9_env_immutable_after_capture (ts : List TickInput) (t : TickInput)
    (p : Profile) (e : EnvironmentInfo) :
    (p.environment = some e →
        envRequests ts p = 0 ∧ (runTicks ts p).environment = some e) ∧
      (p.environment = none → t.env = Except.ok e →
        envRequests (t :: ts) p = 1 ∧
          (runTicks (t :: ts) p).environment = some e) := by
  refine ⟨fun h => envRequests_of_some ts p e h, fun hp he => ?_⟩
  have h1 := collect_sample_env_ok p t e hp he
  have h2 := envRequests_of_some ts _ e h1
  refine ⟨?_, ?_⟩
  · show (if p.environment.isNone then 1 else 0) + _ = 1
    simp [hp, h2.1]
  · show (runTicks ts (collect_sample p t).1).environment = some e
    exact h2.2

/-- C9 witness: a run whose first tick succeeds requests the environment
exactly once and keeps it. -/
theorem c9_env_immutable_after_capture_witness :
    demoProfile.environment = none ∧ (tickOk 0).env = Except.ok demoEnv ∧
      envRequests [tickOk 0, tickOk 1] demoProfile = 1 ∧
      (runTicks [tickOk 0, tickOk 1] demoProfile).environment =
        some demoEnv := by
  have h := (c9_env_immutable_after_capture [tickOk 1] (tickOk 0) demoProfile
    demoEnv).2 rfl rfl
  exact ⟨rfl, rfl, h.1, h.2⟩

/-! ## Analyzer lemmas: list maxima and the shared threshold check -/

theorem foldl_max_eq_or_mem (xs : List ℚ) (a : ℚ) :
    xs.foldl max a = a ∨ xs.foldl max a ∈ xs := by
  induction xs generalizing a with
  | nil => exact Or.inl rfl
  | cons x xs ih =>
    rcases ih (max a x) with h | h
    · rcases max_choice a x with hm | hm
      · exact Or.inl (by rw [List.foldl_cons, h, hm])
      · exact Or.inr (by rw [List.foldl_cons, h, hm]; exact List.mem_cons_self x xs)
    · exact Or.inr (List.mem_cons_of_mem x h)

theorem le_foldl_max_init (xs : List ℚ) (a : ℚ) : a ≤ xs.foldl max a := by
  induction xs generalizing a with
  | nil => exact le_refl a
  | cons x xs ih => exact le_trans (le_max_left a x) (ih (max a x))

theorem le_foldl_max_of_mem (xs : List ℚ) (a y : ℚ) (hy : y ∈ xs) :
    y ≤ xs.foldl max a := by
  induction xs generalizing a with
  | nil => cases hy
  | cons x xs ih =>
    rcases List.mem_cons.mp hy with rfl | h
    · exact le_trans (le_max_right a y) (le_foldl_max_init xs _)
    · exact ih _ h

theorem listMax_mem (l : List ℚ) (hl : l ≠ []) : listMax l ∈ l := by
  cases l with
  | nil => exact absurd rfl hl
  | cons x xs =>
    rcases foldl_max_eq_or_mem xs x with h | h
    · rw [listMax, h]; exact List.mem_cons_self x xs
    · rw [listMax]; exact List.mem_cons_of_mem x h

theorem le_listMax (l : List ℚ) (y : ℚ) (hy : y ∈ l) : y ≤ listMax l := by
  cases l with
  | nil => cases hy
  | cons x xs =>
    rcases List.mem_cons.mp hy with rfl | h
    · exact le_foldl_max_init xs y
    · exact le_foldl_max_of_mem xs x y h

theorem threshold_insights_nil (v : GPUStats → ℚ) (w c : ℚ)
    (mn mw mc sw sc : String) (data : List GPUStats)
    (h : data.filter (fun s => decide (w < v s)) = []) :
    threshold_insights v w c mn mw mc sw sc data = [] := by
  unfold threshold_insights
  split
  · rfl
  · rename_i hd tl heq
    rw [h] at heq
    cases heq

theorem threshold_insights_cons (v : GPUStats → ℚ) (w c : ℚ)
    (mn mw mc sw sc : String) (data : List GPUStats) (hd : GPUStats)
    (tl : List GPUStats)
    (h : data.filter (fun s => decide (w < v s)) = hd :: tl) :
    threshold_insights v w c mn mw mc sw sc data =
      if c ≤ listMax ((hd :: tl).map v) then
        [{ timestamp := ((hd :: tl).getLast (List.cons_ne_nil hd tl)).timestamp,
           severity := "critical", message := mc, metric := mn,
           value := listMax ((hd :: tl).map v), threshold := c,
           suggestion := sc }]
      else
        [{ timestamp := ((hd :: tl).getLast (List.cons_ne_nil hd tl)).timestamp,
           severity := "warning", message := mw, metric := mn,
           value := listMax ((hd :: tl).map v), threshold := w,
           suggestion := sw }] := by
  unfold threshold_insights
  split
  · rename_i heq
    rw [h] at heq
    cases heq
  · rename_i hd2 tl2 heq
    rw [h] at heq
    cases heq
    rfl

theorem threshold_insights_length_le (v : GPUStats → ℚ) (w c : ℚ)
    (mn mw mc sw sc : String) (data : List GPUStats) :
    (threshold_insights v w c mn mw mc sw sc data).length ≤ 1 := by
  unfold threshold_insights
  split
  · simp
  · dsimp only
    split <;> simp

theorem threshold_insights_metric (v : GPUStats → ℚ) (w c : ℚ)
    (mn mw mc sw sc : String) (data : List GPUStats) :
    ∀ i ∈ threshold_insights v w c mn mw mc sw sc data, i.metric = mn := by
  intro i hi
  unfold threshold_insights at hi
  split at hi
  · cases hi
  · dsimp only at hi
    split at hi <;> (simp at hi; subst hi; rfl)

/-! ## Claim theorems: the threshold checks -/

/-- C3: with warning/critical thresholds `w ≤ c`, the utilization check emits
nothing when no sample exceeds `w`; otherwise it emits exactly one insight
whose value is the maximum utilization among the samples above `w`, anchored
at the timestamp of the last sample of that filtered subsequence, with
severity `critical` and threshold `c` when the maximum reaches `c` and
severity `warning` and threshold `w` otherwise — never both severities. -/
theorem c3_utilization_check_spec (gpu_data : List GPUStats) (gpu_id : ℕ)
    (w c : ℚ) (hwc : w ≤ c) :
    (gpu_data.filter (fun s => decide (w < s.utilization)) = [] →
        check_utilization w c gpu_data gpu_id = []) ∧
      ∀ hd tl,
        gpu_data.filter (fun s => decide (w < s.utilization)) = hd :: tl →
        ∃ ins, check_utilization w c gpu_data gpu_id = [ins] ∧
          ins.metric = "utilization" ∧
          ins.value ∈ (hd :: tl).map (fun s => s.utilization) ∧
          (∀ u ∈ (hd :: tl).map (fun s => s.utilization), u ≤ ins.value) ∧
          ins.timestamp =
            ((hd :: tl).getLast (List.cons_ne_nil hd tl)).timestamp ∧
          (c ≤ ins.value → ins.severity = "critical" ∧ ins.threshold = c) ∧
          (ins.value < c → ins.severity = "warning" ∧ ins.threshold = w) := by
  constructor
  · intro h
    exact threshold_insights_nil _ _ _ _ _ _ _ _ _ h
  · intro hd tl h
    rw [check_utilization,
      threshold_insights_cons _ _ _ _ _ _ _ _ _ hd tl h]
    have hmem : listMax ((hd :: tl).map fun s => s.utilization) ∈
        (hd :: tl).map fun s => s.utilization :=
      listMax_mem _ (by simp)
    have hle : ∀ u ∈ (hd :: tl).map fun s => s.utilization,
        u ≤ listMax ((hd :: tl).map fun s => s.utilization) :=
      fun u hu => le_listMax _ u hu
    by_cases hc : c ≤ listMax ((hd :: tl).map fun s => s.utilization)
    · rw [if_pos hc]
      exact ⟨_, rfl, rfl, hmem, hle, rfl, fun _ => ⟨rfl, rfl⟩,
        fun hlt => absurd hc (not_le.mpr hlt)⟩
    · rw [if_neg hc]
      exact ⟨_, rfl, rfl, hmem, hle, rfl, fun hge => absurd hge hc,
        fun _ => ⟨rfl, rfl⟩⟩

/-- C3 witness: one sample at 96 % with thresholds 90/95 yields exactly one
critical insight valued 96 with threshold 95. -/
theorem c3_utilization_check_spec_witness :
    (90 : ℚ) ≤ 95 ∧
      [demoSample 0 96 0].filter (fun s => decide ((90 : ℚ) < s.utilization)) =
        [demoSample 0 96 0] ∧
      ∃ ins, check_utilization 90 95 [demoSample 0 96 0] 0 = [ins] ∧
        ins.metric = "utilization" ∧ ins.severity = "critical" ∧
        ins.value = 96 ∧ ins.threshold = 95 := by
  refine ⟨by norm_num, by decide, ?_⟩
  obtain ⟨ins, h1, h2, _, _, _, h6, _⟩ :=
    (c3_utilization_check_spec [demoSample 0 96 0] 0 90 95
      (by norm_num)).2 (demoSample 0 96 0) [] (by decide)
  have hval : ins.value = 96 := by
    have : check_utilization 90 95 [demoSample 0 96 0] 0 =
        [{ timestamp := 0, severity := "critical",
           message := "GPU 0 utilization critically high",
           metric := "utilization", value := 96, threshold := 95,
           suggestion := "Consider distributing workload across multiple GPUs or optimizing compute operations" }] := by
      decide
    rw [this] at h1
    cases h1
    rfl
  obtain ⟨hs, ht⟩ := h6 (by rw [hval]; norm_num)
  exact ⟨ins, h1, h2, hs, hval, ht⟩

/-- C6: the bottleneck check emits nothing when no sample has derived memory
percentage above 80 with utilization below 50 simultaneously; otherwise it
emits exactly one `warning` insight anchored at the last such sample's
timestamp whose value is the mean of the derived memory percentage over
exactly that subsequence. -/
theorem c6_bottleneck_check_spec (gpu_data : List GPUStats) (gpu_id : ℕ) :
    (gpu_data.filter
        (fun s => decide (80 < memory_pct s) && decide (s.utilization < 50)) =
          [] →
        check_memory_bottlenecks gpu_data gpu_id = []) ∧
      ∀ hd tl,
        gpu_data.filter
          (fun s => decide (80 < memory_pct s) && decide (s.utilization < 50)) =
            hd :: tl →
        check_memory_bottlenecks gpu_data gpu_id =
          [{ timestamp :=
               ((hd :: tl).getLast (List.cons_ne_nil hd tl)).timestamp,
             severity := "warning",
             message := "GPU " ++ toString gpu_id ++
               " potential memory bottleneck detected",
             metric := "memory_utilization_ratio",
             value := ((hd :: tl).map memory_pct).sum / ((hd :: tl).length : ℚ),
             threshold := 80,
             suggestion := "Consider optimizing memory access patterns or reducing memory footprint" }] := by
  constructor
  · intro h
    unfold check_memory_bottlenecks
    split
    · rfl
    · rename_i hd tl heq
      rw [h] at heq
      cases heq
  · intro hd tl h
    unfold check_memory_bottlenecks
    split
    · rename_i heq
      rw [h] at heq
      cases heq
    · rename_i hd2 tl2 heq
      rw [h] at heq
      cases heq
      rfl

/-- C6 witness: memory at 85–90 % with utilization 30 % on the first two of
three samples yields one warning insight whose value is the mean 87.5 of the
two qualifying percentages, anchored at the second sample. -/
theorem c6_bottleneck_check_spec_witness :
    bottleneckSeries.filter
        (fun s => decide (80 < memory_pct s) && decide (s.utilization < 50)) =
      [demoSample 0 30 85, demoSample 10 30 90] ∧
      check_memory_bottlenecks bottleneckSeries 0 =
        [{ timestamp := 10, severity := "warning",
           message := "GPU 0 potential memory bottleneck detected",
           metric := "memory_utilization_ratio", value := 175 / 2,
           threshold := 80,
           suggestion := "Consider optimizing memory access patterns or reducing memory footprint" }] := by
  have hf : bottleneckSeries.filter
      (fun s => decide (80 < memory_pct s) && decide (s.utilization < 50)) =
        [demoSample 0 30 85, demoSample 10 30 90] := by
    norm_num [bottleneckSeries, demoSample, memory_pct, List.filter]
  refine ⟨hf, ?_⟩
  have h := (c6_bottleneck_check_spec bottleneckSeries 0).2
    (demoSample 0 30 85) [demoSample 10 30 90] hf
  rw [h]
  norm_num [demoSample, memory_pct, List.getLast]
  rfl

/-- C10: every idle-period insight carries the idle threshold constant 10 in
both its value and threshold fields — never the observed utilization or the
run's duration — with severity `info`, anchored at the run's end, and the
run's start and end appearing in the suggestion text. -/
theorem c10_idle_insight_fields (gpu_data : List GPUStats) (gpu_id : ℕ)
    (i : PerformanceInsight) (hi : i ∈ check_idle_periods gpu_data gpu_id) :
    i.value = idle_threshold ∧ i.threshold = idle_threshold ∧
      i.severity = "info" ∧
      ∃ st en, (st, en) ∈ idle_periods gpu_data ∧ i.timestamp = en ∧
        i.suggestion =
          "Consider scheduling other workloads during idle periods (" ++
            toString st ++ " to " ++ toString en ++ ")" := by
  unfold check_idle_periods at hi
  obtain ⟨⟨st, en⟩, hmem, rfl⟩ := List.mem_map.mp hi
  exact ⟨rfl, rfl, rfl, st, en, hmem, rfl, rfl⟩

/-- C10 witness: the one idle insight of the idle-then-busy series carries
value 10 and threshold 10 with severity `info`. -/
theorem c10_idle_insight_fields_witness :
    mkIdleInsight 0 (0, 500) ∈ check_idle_periods idleThenBusySeries 0 ∧
      (mkIdleInsight 0 (0, 500)).value = idle_threshold ∧
      (mkIdleInsight 0 (0, 500)).threshold = idle_threshold ∧
      (mkIdleInsight 0 (0, 500)).severity = "info" := by
  have hip : idle_periods idleThenBusySeries = [(0, 500)] := by
    norm_num [idle_periods, idleLoop, idleThenBusySeries, demoSample,
      idle_threshold, min_idle_duration, List.getLast?]
  have hmem : mkIdleInsight 0 (0, 500) ∈
      check_idle_periods idleThenBusySeries 0 := by
    rw [check_idle_periods, hip]
    simp
  have h := c10_idle_insight_fields idleThenBusySeries 0 _ hmem
  exact ⟨hmem, h.1, h.2.1, h.2.2.1⟩

/-! ## Claim theorems: configuration errors -/

/-- C8 counterexample: with the utilization warning threshold missing,
constructing the analyzer succeeds and reports nothing — it merely stores the
configuration — while `analyze` raises the `KeyError` from the first check
that reads the missing key, refuting "reported once at construction, not
per-check". -/
theorem c8_counterexample_init_reports_nothing :
    analyzerInit demoCfgNoUtilWarning =
        { config := demoCfgNoUtilWarning, insights := [] } ∧
      analyze_gpu demoCfgNoUtilWarning [demoSample 0 96 0] 0 =
        Except.error "KeyError: utilization.warning" := by
  exact ⟨rfl, by decide⟩

/-- C8 (amended): `PerformanceAnalyzer.__init__` performs no validation, so a
missing threshold is never reported at construction; instead every
`analyze` call over any series raises the `KeyError` from the first
configuration read that misses (here the utilization warning threshold). -/
theorem c8_missing_threshold_raises_in_analyze (cfg : Config)
    (gpu_data : List GPUStats) (gpu_id : ℕ) (msg : String)
    (h : getThreshold cfg "utilization" "warning" = Except.error msg) :
    analyzerInit cfg = { config := cfg, insights := [] } ∧
      analyze_gpu cfg gpu_data gpu_id = Except.error msg := by
  refine ⟨rfl, ?_⟩
  unfold analyze_gpu check_utilization_cfg with_two_thresholds
  rw [h]

/-- C8 witness: the default configuration with the utilization warning entry
removed errors on every analyze call. -/
theorem c8_missing_threshold_raises_in_analyze_witness :
    getThreshold demoCfgNoUtilWarning "utilization" "warning" =
        Except.error "KeyError: utilization.warning" ∧
      analyze_gpu demoCfgNoUtilWarning [demoSample 0 50 0] 0 =
        Except.error "KeyError: utilization.warning" := by
  refine ⟨by decide, ?_⟩
  exact (c8_missing_threshold_raises_in_analyze demoCfgNoUtilWarning
    [demoSample 0 50 0] 0 "KeyError: utilization.warning" (by decide)).2

/-! ## The idle-period scan agrees with the maximal-span decomposition -/

theorem isIdle_true_iff (s : GPUStats) :
    isIdle s = true ↔ s.utilization < idle_threshold := by
  simp [isIdle]

theorem idleLoop_cons_idle (s : GPUStats) (rest : List GPUStats)
    (hs : s.utilization < idle_threshold) :
    idleLoop (s :: rest) none = idleLoop rest (some s.timestamp) := by
  simp only [idleLoop, if_pos hs]

theorem idleLoop_cons_idle_some (s : GPUStats) (rest : List GPUStats) (st : ℚ)
    (hs : s.utilization < idle_threshold) :
    idleLoop (s :: rest) (some st) = idleLoop rest (some st) := by
  simp only [idleLoop, if_pos hs]

theorem idleLoop_cons_busy_none (s : GPUStats) (rest : List GPUStats)
    (hs : ¬s.utilization < idle_threshold) :
    idleLoop (s :: rest) none = idleLoop rest none := by
  simp only [idleLoop, if_neg hs]

theorem idleLoop_cons_busy_some (s : GPUStats) (rest : List GPUStats) (st : ℚ)
    (hs : ¬s.utilization < idle_threshold) :
    idleLoop (s :: rest) (some st) =
      (if min_idle_duration ≤ s.timestamp - st then
          (st, s.timestamp) :: (idleLoop rest none).1
        else (idleLoop rest none).1, (idleLoop rest none).2) := by
  simp only [idleLoop, if_neg hs]

theorem idleLoop_idle_prefix (l tail : List GPUStats) (st : ℚ)
    (h : ∀ x ∈ l, isIdle x = true) :
    idleLoop (l ++ tail) (some st) = idleLoop tail (some st) := by
  induction l with
  | nil => rfl
  | cons x xs ih =>
    have hx : x.utilization < idle_threshold :=
      (isIdle_true_iff x).mp (h x (List.mem_cons_self x xs))
    rw [List.cons_append, idleLoop_cons_idle_some x (xs ++ tail) st hx]
    exact ih (fun y hy => h y (List.mem_cons_of_mem x hy))

theorem idleLoop_snd_some_ne_nil (l : List GPUStats) (st : ℚ)
    (h : (idleLoop l none).2 = some st) : l ≠ [] := by
  intro he
  subst he
  simp [idleLoop] at h

theorem dropWhile_head_false {α : Type} (p : α → Bool) (l : List α) (c : α)
    (r : List α) (h : l.dropWhile p = c :: r) : p c = false := by
  induction l with
  | nil => cases h
  | cons x xs ih =>
    rw [List.dropWhile_cons] at h
    by_cases hx : p x = true
    · rw [if_pos hx] at h
      exact ih h
    · rw [if_neg hx] at h
      cases h
      exact Bool.eq_false_iff.mpr hx

theorem specIdleSpans_nil : specIdleSpans [] = [] := by
  rw [specIdleSpans.eq_def]

theorem specIdleSpans_cons_busy (s : GPUStats) (rest : List GPUStats)
    (hs : isIdle s = false) :
    specIdleSpans (s :: rest) = specIdleSpans rest := by
  conv_lhs => rw [specIdleSpans.eq_def]
  simp [hs]

theorem specIdleSpans_cons_idle_nil (s : GPUStats) (rest : List GPUStats)
    (hs : isIdle s = true) (hdrop : rest.dropWhile isIdle = []) :
    specIdleSpans (s :: rest) = [((s :: rest).takeWhile isIdle, none)] := by
  conv_lhs => rw [specIdleSpans.eq_def]
  dsimp only
  rw [if_pos hs]
  split
  · rfl
  · rename_i c2 r2 heq
    rw [List.dropWhile_cons_of_pos hs, hdrop] at heq
    cases heq

theorem specIdleSpans_cons_idle_cons (s : GPUStats) (rest : List GPUStats)
    (c : GPUStats) (rest2 : List GPUStats) (hs : isIdle s = true)
    (hdrop : rest.dropWhile isIdle = c :: rest2) :
    specIdleSpans (s :: rest) =
      ((s :: rest).takeWhile isIdle, some c) :: specIdleSpans rest2 := by
  conv_lhs => rw [specIdleSpans.eq_def]
  dsimp only
  rw [if_pos hs]
  split
  · rename_i heq
    rw [List.dropWhile_cons_of_pos hs, hdrop] at heq
    cases heq
  · rename_i c2 r2 heq
    rw [List.dropWhile_cons_of_pos hs, hdrop] at heq
    cases heq
    rfl

theorem idle_periods_eq_aux :
    ∀ (n : ℕ) (data : List GPUStats), data.length ≤ n →
      idle_periods data = specQualifyingRuns data := by
  intro n
  induction n with
  | zero =>
    intro data hlen
    have hd : data = [] := List.eq_nil_of_length_eq_zero (Nat.le_zero.mp hlen)
    subst hd
    simp [idle_periods, idleLoop, specQualifyingRuns, specIdleSpans_nil]
  | succ n ih =>
    intro data hlen
    cases data with
    | nil =>
      simp [idle_periods, idleLoop, specQualifyingRuns, specIdleSpans_nil]
    | cons s rest =>
      have hrest_len : rest.length ≤ n := by
        simpa using Nat.succ_le_succ_iff.mp (by simpa using hlen)
      cases hs : isIdle s with
      | false =>
        have hs' : ¬s.utilization < idle_threshold := by
          simpa [isIdle] using hs
        have hcode : idle_periods (s :: rest) = idle_periods rest := by
          unfold idle_periods
          rw [idleLoop_cons_busy_none s rest hs']
          cases h3 : (idleLoop rest none).2 with
          | none => rfl
          | some st2 =>
            have hne2 : rest ≠ [] := idleLoop_snd_some_ne_nil rest st2 h3
            obtain ⟨x, xs, rfl⟩ := List.exists_cons_of_ne_nil hne2
            rw [List.getLast?_cons_cons]
        rw [hcode, ih rest hrest_len]
        unfold specQualifyingRuns
        rw [specIdleSpans_cons_busy s rest hs]
      | true =>
        have hs' : s.utilization < idle_threshold := (isIdle_true_iff s).mp hs
        cases hdrop : rest.dropWhile isIdle with
        | nil =>
          have hall : ∀ x ∈ rest, isIdle x = true :=
            List.dropWhile_eq_nil_iff.mp hdrop
          have hloop : idleLoop (s :: rest) none = ([], some s.timestamp) := by
            rw [idleLoop_cons_idle s rest hs']
            have h2 := idleLoop_idle_prefix rest [] s.timestamp hall
            rw [List.append_nil] at h2
            rw [h2]
            rfl
          have hne : s :: rest ≠ ([] : List GPUStats) := List.cons_ne_nil s rest
          have hcode : idle_periods (s :: rest) =
              if min_idle_duration ≤
                  ((s :: rest).getLast hne).timestamp - s.timestamp then
                [(s.timestamp, ((s :: rest).getLast hne).timestamp)]
              else [] := by
            unfold idle_periods
            rw [hloop, List.getLast?_eq_getLast _ hne]
            dsimp only
            by_cases hq : min_idle_duration ≤
                ((s :: rest).getLast hne).timestamp - s.timestamp
            · rw [if_pos hq, if_pos hq]
              rfl
            · rw [if_neg hq, if_neg hq]
          have htake : (s :: rest).takeWhile isIdle = s :: rest := by
            rw [List.takeWhile_cons_of_pos hs]
            congr 1
            have h4 := List.takeWhile_append_dropWhile isIdle rest
            rw [hdrop, List.append_nil] at h4
            exact h4
          have hspans : specIdleSpans (s :: rest) = [(s :: rest, none)] := by
            rw [specIdleSpans_cons_idle_nil s rest hs hdrop, htake]
          rw [hcode]
          unfold specQualifyingRuns
          rw [hspans, List.filterMap_cons, List.filterMap_nil]
          dsimp only [specSpanBounds]
          by_cases hq : min_idle_duration ≤
              ((s :: rest).getLast hne).timestamp - s.timestamp
          · rw [if_pos hq, if_pos hq]
          · rw [if_neg hq, if_neg hq]
        | cons c rest2 =>
          have hc : isIdle c = false :=
            dropWhile_head_false isIdle rest c rest2 hdrop
          have hc' : ¬c.utilization < idle_threshold := by
            simpa [isIdle] using hc
          have htw_all : ∀ x ∈ rest.takeWhile isIdle, isIdle x = true :=
            fun x hx => List.mem_takeWhile_imp hx
          have hrest_decomp : rest.takeWhile isIdle ++ (c :: rest2) = rest := by
            rw [← hdrop]
            exact List.takeWhile_append_dropWhile isIdle rest
          have hlen2 : rest2.length ≤ n := by
            have h1 : (c :: rest2).length ≤ rest.length := by
              rw [← hdrop]
              exact (List.dropWhile_sublist _).length_le
            simp only [List.length_cons] at h1
            omega
          have hloop1 : idleLoop (s :: rest) none =
              idleLoop (c :: rest2) (some s.timestamp) := by
            rw [idleLoop_cons_idle s rest hs']
            conv_lhs => rw [← hrest_decomp]
            exact idleLoop_idle_prefix _ _ _ htw_all
          have hloop2 : idleLoop (c :: rest2) (some s.timestamp) =
              (if min_idle_duration ≤ c.timestamp - s.timestamp then
                  (s.timestamp, c.timestamp) :: (idleLoop rest2 none).1
                else (idleLoop rest2 none).1, (idleLoop rest2 none).2) :=
            idleLoop_cons_busy_some c rest2 s.timestamp hc'
          have hip : idle_periods (s :: rest) =
              (if min_idle_duration ≤ c.timestamp - s.timestamp then
                [(s.timestamp, c.timestamp)] else []) ++ idle_periods rest2 := by
            unfold idle_periods
            rw [hloop1, hloop2]
            dsimp only
            cases h3 : (idleLoop rest2 none).2 with
            | none =>
              by_cases hq1 : min_idle_duration ≤ c.timestamp - s.timestamp <;>
                simp [hq1]
            | some st2 =>
              have hne2 : rest2 ≠ [] := idleLoop_snd_some_ne_nil rest2 st2 h3
              have hsplit : s :: rest =
                  (s :: (rest.takeWhile isIdle ++ [c])) ++ rest2 := by
                conv_lhs => rw [← hrest_decomp]
                simp
              rw [hsplit, List.getLast?_append_of_ne_nil _ hne2]
              cases hl2 : rest2.getLast? with
              | none => exact absurd (List.getLast?_eq_none_iff.mp hl2) hne2
              | some lastRow =>
                by_cases hq2 : min_idle_duration ≤ lastRow.timestamp - st2 <;>
                  by_cases hq1 : min_idle_duration ≤ c.timestamp - s.timestamp <;>
                  simp [hq1, hq2]
          have hqr : specQualifyingRuns (s :: rest) =
              (if min_idle_duration ≤ c.timestamp - s.timestamp then
                [(s.timestamp, c.timestamp)] else []) ++
                specQualifyingRuns rest2 := by
            unfold specQualifyingRuns
            rw [specIdleSpans_cons_idle_cons s rest c rest2 hs hdrop,
              List.filterMap_cons, List.takeWhile_cons_of_pos hs]
            dsimp only [specSpanBounds]
            by_cases hq1 : min_idle_duration ≤ c.timestamp - s.timestamp <;>
              simp [hq1]
          rw [hip, hqr, ih rest2 hlen2]

theorem idle_periods_eq_specQualifyingRuns (gpu_data : List GPUStats) :
    idle_periods gpu_data = specQualifyingRuns gpu_data :=
  idle_periods_eq_aux gpu_data.length gpu_data (le_refl _)

/-- C4: the idle-period check emits exactly one insight per qualifying
maximal contiguous span of samples with utilization below the idle threshold
— a span qualifies when its end (the closing sample's timestamp, or the
series' last timestamp when the run is still open at series end) is at least
the five-minute minimum past its start — and no insight for any shorter span;
every emitted idle insight has severity `info`. -/
theorem c4_idle_insights_per_maximal_span (gpu_data : List GPUStats)
    (gpu_id : ℕ) :
    check_idle_periods gpu_data gpu_id =
      (specQualifyingRuns gpu_data).map (mkIdleInsight gpu_id) ∧
      (check_idle_periods gpu_data gpu_id).all
        (fun i => i.severity == "info") = true := by
  constructor
  · unfold check_idle_periods
    rw [idle_periods_eq_specQualifyingRuns]
  · simp only [check_idle_periods, List.all_eq_true]
    intro i hi
    obtain ⟨per, _, rfl⟩ := List.mem_map.mp hi
    rfl

/-! ## Counting insights by metric name -/

theorem countMetric_append (a b : List PerformanceInsight) (m : String) :
    countMetric (a ++ b) m = countMetric a m + countMetric b m := by
  simp [countMetric, List.filter_append]

theorem countMetric_le_length (l : List PerformanceInsight) (m : String) :
    countMetric l m ≤ l.length := by
  simpa [countMetric] using List.length_filter_le _ l

theorem countMetric_eq_zero (l : List PerformanceInsight) (m : String)
    (h : ∀ i ∈ l, i.metric ≠ m) : countMetric l m = 0 := by
  simp only [countMetric, List.length_eq_zero]
  rw [List.filter_eq_nil]
  intro i hi
  simpa using h i hi

theorem countMetric_eq_length (l : List PerformanceInsight) (m : String)
    (h : ∀ i ∈ l, i.metric = m) : countMetric l m = l.length := by
  unfold countMetric
  congr 1
  rw [List.filter_eq_self]
  intro i hi
  simpa using h i hi

theorem check_utilization_metric (w c : ℚ) (data : List GPUStats) (id : ℕ) :
    ∀ i ∈ check_utilization w c data id, i.metric = "utilization" :=
  threshold_insights_metric _ _ _ _ _ _ _ _ _

theorem check_memory_usage_metric (w c : ℚ) (data : List GPUStats) (id : ℕ) :
    ∀ i ∈ check_memory_usage w c data id, i.metric = "memory" :=
  threshold_insights_metric _ _ _ _ _ _ _ _ _

theorem check_temperature_metric (w c : ℚ) (data : List GPUStats) (id : ℕ) :
    ∀ i ∈ check_temperature w c data id, i.metric = "temperature" :=
  threshold_insights_metric _ _ _ _ _ _ _ _ _

theorem check_power_usage_metric (w c : ℚ) (data : List GPUStats) (id : ℕ) :
    ∀ i ∈ check_power_usage w c data id, i.metric = "power" :=
  threshold_insights_metric _ _ _ _ _ _ _ _ _

theorem check_utilization_length_le (w c : ℚ) (data : List GPUStats)
    (id : ℕ) : (check_utilization w c data id).length ≤ 1 :=
  threshold_insights_length_le _ _ _ _ _ _ _ _ _

theorem check_memory_usage_length_le (w c : ℚ) (data : List GPUStats)
    (id : ℕ) : (check_memory_usage w c data id).length ≤ 1 :=
  threshold_insights_length_le _ _ _ _ _ _ _ _ _

theorem check_temperature_length_le (w c : ℚ) (data : List GPUStats)
    (id : ℕ) : (check_temperature w c data id).length ≤ 1 :=
  threshold_insights_length_le _ _ _ _ _ _ _ _ _

theorem check_power_usage_length_le (w c : ℚ) (data : List GPUStats)
    (id : ℕ) : (check_power_usage w c data id).length ≤ 1 :=
  threshold_insights_length_le _ _ _ _ _ _ _ _ _

theorem check_idle_periods_metric (data : List GPUStats) (id : ℕ) :
    ∀ i ∈ check_idle_periods data id, i.metric = "utilization" := by
  intro i hi
  obtain ⟨per, _, rfl⟩ := List.mem_map.mp hi
  rfl

theorem check_idle_periods_length (data : List GPUStats) (id : ℕ) :
    (check_idle_periods data id).length = (idle_periods data).length := by
  simp [check_idle_periods]

theorem check_memory_bottlenecks_metric (data : List GPUStats) (id : ℕ) :
    ∀ i ∈ check_memory_bottlenecks data id,
      i.metric = "memory_utilization_ratio" := by
  intro i hi
  unfold check_memory_bottlenecks at hi
  split at hi
  · cases hi
  · simp at hi
    subst hi
    rfl

theorem with_two_thresholds_ok (cfg : Config) (metric : String)
    (body : ℚ → ℚ → List PerformanceInsight) (a : List PerformanceInsight)
    (h : with_two_thresholds cfg metric body = Except.ok a) :
    ∃ w c, a = body w c := by
  unfold with_two_thresholds at h
  cases h1 : getThreshold cfg metric "warning" <;> rw [h1] at h
  · cases h
  · cases h2 : getThreshold cfg metric "critical" <;> rw [h2] at h
    · cases h
    · cases h
      exact ⟨_, _, rfl⟩

theorem analyze_gpu_ok_shape (cfg : Config) (data : List GPUStats) (id : ℕ)
    (l : List PerformanceInsight) (h : analyze_gpu cfg data id = Except.ok l) :
    ∃ uw uc mw mc tw tc pw pc,
      l = check_utilization uw uc data id ++
        check_memory_usage mw mc data id ++
        check_temperature tw tc data id ++
        check_power_usage pw pc data id ++
        check_idle_periods data id ++
        check_memory_bottlenecks data id := by
  unfold analyze_gpu at h
  cases h1 : check_utilization_cfg cfg data id <;> rw [h1] at h
  · cases h
  · cases h2 : check_memory_usage_cfg cfg data id <;> rw [h2] at h
    · cases h
    · cases h3 : check_temperature_cfg cfg data id <;> rw [h3] at h
      · cases h
      · cases h4 : check_power_usage_cfg cfg data id <;> rw [h4] at h
        · cases h
        · cases h
          obtain ⟨uw, uc, hu⟩ := with_two_thresholds_ok _ _ _ _ h1
          obtain ⟨mw, mc, hm⟩ := with_two_thresholds_ok _ _ _ _ h2
          obtain ⟨tw, tc, ht⟩ := with_two_thresholds_ok _ _ _ _ h3
          obtain ⟨pw, pc, hp⟩ := with_two_thresholds_ok _ _ _ _ h4
          exact ⟨uw, uc, mw, mc, tw, tc, pw, pc, by rw [hu, hm, ht, hp]⟩

/-! ## Claim theorems: at most one insight per metric -/

/-- C5 counterexample: on the idle-then-busy series with the default
thresholds, the full analysis emits two insights carrying the metric name
`utilization` — one from the utilization threshold check and one idle-period
insight, which reuses the metric name — refuting "zero or exactly one insight
carrying that metric name". -/
theorem c5_counterexample_two_utilization_insights :
    Except.map (fun l => countMetric l "utilization")
        (analyze_gpu demoCfg idleThenBusySeries 0) = Except.ok 2 := by
  have h0 : analyze_gpu demoCfg idleThenBusySeries 0 =
      Except.ok (check_utilization 90 95 idleThenBusySeries 0 ++
        check_memory_usage 85 90 idleThenBusySeries 0 ++
        check_temperature 80 85 idleThenBusySeries 0 ++
        check_power_usage 90 95 idleThenBusySeries 0 ++
        check_idle_periods idleThenBusySeries 0 ++
        check_memory_bottlenecks idleThenBusySeries 0) := rfl
  have h2 : check_memory_usage 85 90 idleThenBusySeries 0 = [] := by
    norm_num [check_memory_usage, threshold_insights, idleThenBusySeries,
      demoSample, memory_pct, List.filter]
  have h5 : check_idle_periods idleThenBusySeries 0 =
      [mkIdleInsight 0 (0, 500)] := by
    norm_num [check_idle_periods, idle_periods, idleLoop, idleThenBusySeries,
      demoSample, idle_threshold, min_idle_duration, List.getLast?]
  have h6 : check_memory_bottlenecks idleThenBusySeries 0 = [] := by
    unfold check_memory_bottlenecks
    split
    · rfl
    · rename_i hd tl heq
      rw [show idleThenBusySeries.filter
          (fun s => decide (80 < memory_pct s) && decide (s.utilization < 50)) =
            [] by
        norm_num [idleThenBusySeries, demoSample, memory_pct, List.filter]]
        at heq
      cases heq
  rw [h0, h2, h5, h6]
  decide

/-- C5 (amended): over any configuration the analyzer accepts, the full
per-device analysis emits at most one insight with metric name `memory`,
`temperature` or `power`; for `utilization` the threshold check contributes at
most one, but each qualifying idle period contributes a further insight that
reuses the metric name `utilization`, so the count for that name is only
bounded by one plus the number of idle periods (the bottleneck check uses the
distinct name `memory_utilization_ratio`). -/
theorem c5_metric_count_bounds (cfg : Config) (gpu_data : List GPUStats)
    (gpu_id : ℕ) (l : List PerformanceInsight)
    (h : analyze_gpu cfg gpu_data gpu_id = Except.ok l) :
    countMetric l "memory" ≤ 1 ∧ countMetric l "temperature" ≤ 1 ∧
      countMetric l "power" ≤ 1 ∧
      countMetric l "utilization" ≤ 1 + (idle_periods gpu_data).length := by
  obtain ⟨uw, uc, mw, mc, tw, tc, pw, pc, rfl⟩ :=
    analyze_gpu_ok_shape cfg gpu_data gpu_id l h
  have zA : ∀ m, m ≠ "utilization" →
      countMetric (check_utilization uw uc gpu_data gpu_id) m = 0 :=
    fun m hm => countMetric_eq_zero _ _ (fun i hi => by
      rw [check_utilization_metric uw uc gpu_data gpu_id i hi]
      exact fun he => hm he.symm)
  have zB : ∀ m, m ≠ "memory" →
      countMetric (check_memory_usage mw mc gpu_data gpu_id) m = 0 :=
    fun m hm => countMetric_eq_zero _ _ (fun i hi => by
      rw [check_memory_usage_metric mw mc gpu_data gpu_id i hi]
      exact fun he => hm he.symm)
  have zC : ∀ m, m ≠ "temperature" →
      countMetric (check_temperature tw tc gpu_data gpu_id) m = 0 :=
    fun m hm => countMetric_eq_zero _ _ (fun i hi => by
      rw [check_temperature_metric tw tc gpu_data gpu_id i hi]
      exact fun he => hm he.symm)
  have zD : ∀ m, m ≠ "power" →
      countMetric (check_power_usage pw pc gpu_data gpu_id) m = 0 :=
    fun m hm => countMetric_eq_zero _ _ (fun i hi => by
      rw [check_power_usage_metric pw pc gpu_data gpu_id i hi]
      exact fun he => hm he.symm)
  have zE : ∀ m, m ≠ "utilization" →
      countMetric (check_idle_periods gpu_data gpu_id) m = 0 :=
    fun m hm => countMetric_eq_zero _ _ (fun i hi => by
      rw [check_idle_periods_metric gpu_data gpu_id i hi]
      exact fun he => hm he.symm)
  have zF : ∀ m, m ≠ "memory_utilization_ratio" →
      countMetric (check_memory_bottlenecks gpu_data gpu_id) m = 0 :=
    fun m hm => countMetric_eq_zero _ _ (fun i hi => by
      rw [check_memory_bottlenecks_metric gpu_data gpu_id i hi]
      exact fun he => hm he.symm)
  have bA := le_trans (countMetric_le_length
    (check_utilization uw uc gpu_data gpu_id) "utilization")
    (check_utilization_length_le uw uc gpu_data gpu_id)
  have bB := le_trans (countMetric_le_length
    (check_memory_usage mw mc gpu_data gpu_id) "memory")
    (check_memory_usage_length_le mw mc gpu_data gpu_id)
  have bC := le_trans (countMetric_le_length
    (check_temperature tw tc gpu_data gpu_id) "temperature")
    (check_temperature_length_le tw tc gpu_data gpu_id)
  have bD := le_trans (countMetric_le_length
    (check_power_usage pw pc gpu_data gpu_id) "power")
    (check_power_usage_length_le pw pc gpu_data gpu_id)
  have hE : countMetric (check_idle_periods gpu_data gpu_id) "utilization" =
      (idle_periods gpu_data).length := by
    rw [countMetric_eq_length _ _ (check_idle_periods_metric gpu_data gpu_id)]
    exact check_idle_periods_length gpu_data gpu_id
  refine ⟨?_, ?_, ?_, ?_⟩ <;> simp only [countMetric_append]
  · rw [zA _ (by decide), zC _ (by decide), zD _ (by decide),
      zE _ (by decide), zF _ (by decide)]
    omega
  · rw [zA _ (by decide), zB _ (by decide), zD _ (by decide),
      zE _ (by decide), zF _ (by decide)]
    omega
  · rw [zA _ (by decide), zB _ (by decide), zC _ (by decide),
      zE _ (by decide), zF _ (by decide)]
    omega
  · rw [zB _ (by decide), zC _ (by decide), zD _ (by decide),
      zF _ (by decide), hE]
    omega

/-- C5 witness: the idle-then-busy series under the default configuration
satisfies all four count bounds. -/
theorem c5_metric_count_bounds_witness :
    analyze_gpu demoCfg idleThenBusySeries 0 =
        Except.ok (check_utilization 90 95 idleThenBusySeries 0 ++
          check_memory_usage 85 90 idleThenBusySeries 0 ++
          check_temperature 80 85 idleThenBusySeries 0 ++
          check_power_usage 90 95 idleThenBusySeries 0 ++
          check_idle_periods idleThenBusySeries 0 ++
          check_memory_bottlenecks idleThenBusySeries 0) ∧
      (countMetric (check_utilization 90 95 idleThenBusySeries 0 ++
          check_memory_usage 85 90 idleThenBusySeries 0 ++
          check_temperature 80 85 idleThenBusySeries 0 ++
          check_power_usage 90 95 idleThenBusySeries 0 ++
          check_idle_periods idleThenBusySeries 0 ++
          check_memory_bottlenecks idleThenBusySeries 0) "memory" ≤ 1 ∧
        countMetric (check_utilization 90 95 idleThenBusySeries 0 ++
          check_memory_usage 85 90 idleThenBusySeries 0 ++
          check_temperature 80 85 idleThenBusySeries 0 ++
          check_power_usage 90 95 idleThenBusySeries 0 ++
          check_idle_periods idleThenBusySeries 0 ++
          check_memory_bottlenecks idleThenBusySeries 0) "temperature" ≤ 1 ∧
        countMetric (check_utilization 90 95 idleThenBusySeries 0 ++
          check_memory_usage 85 90 idleThenBusySeries 0 ++
          check_temperature 80 85 idleThenBusySeries 0 ++
          check_power_usage 90 95 idleThenBusySeries 0 ++
          check_idle_periods idleThenBusySeries 0 ++
          check_memory_bottlenecks idleThenBusySeries 0) "power" ≤ 1 ∧
        countMetric (check_utilization 90 95 idleThenBusySeries 0 ++
          check_memory_usage 85 90 idleThenBusySeries 0 ++
          check_temperature 80 85 idleThenBusySeries 0 ++
          check_power_usage 90 95 idleThenBusySeries 0 ++
          check_idle_periods idleThenBusySeries 0 ++
          check_memory_bottlenecks idleThenBusySeries 0) "utilization" ≤
          1 + (idle_periods idleThenBusySeries).length) :=
  ⟨rfl, c5_metric_count_bounds demoCfg idleThenBusySeries 0 _ rfl⟩

end GPUResourceProfiler
